import Mathlib

/-!
# PicoPlan — verification of the record store, migration, image resolution and view logic

Shallow embedding of the PicoPlan sources:

* `src/src/types.ts`                — `Task`, `Tag`, `TaskType`
* `src/src/hooks/useTasks.ts`       — load/migration effect, save/add/toggle/delete
  (this file's `deleteTag` asks no confirmation; modelled as `deleteTagV1`)
* `src/unnamed/part_000`            — the fuller `useTasks` revision with
  `updateTask` and a confirmation-gated `deleteTag` (primary model)
* `src/src/hooks/useImage.ts`, `src/src/utils/imageDb.ts` — image resolution
* `src/src/App.tsx`                 — `filteredTasks` (filtering and default sort)
* `src/src/components/TaskList.tsx` — render-time defaults for image offset/opacity

`localStorage` is modelled as an association list from string keys to already
parsed JSON values (`DBVal`); `DBVal.malformed` stands for a stored string on
which `JSON.parse` throws.  `Date.now()` and `uuidv4()` are environment inputs
passed explicitly.  The JavaScript in-place `Array.prototype.sort` with a
consistent comparator is modelled by the stable `List.mergeSort` on the
comparator's "≤ 0" relation.
-/

namespace PicoPlan

/-- `TaskType` from `types.ts`: `'deadline' | 'scheduled'`. -/
inductive TaskType where
  | deadline
  | scheduled
deriving DecidableEq, Repr

/-- `Tag` from `types.ts`; optional fields are `Option`. -/
structure Tag where
  id : String
  name : String
  themeColor : String
  imageUrl : Option String := none
  localImageId : Option String := none
deriving DecidableEq, Repr

/-- `Task` from `types.ts`; `date` is the ISO day string, `createdAt` epoch ms. -/
structure Task where
  id : String
  title : String
  date : String
  time : Option String := none
  completed : Bool
  type : TaskType
  tagId : Option String := none
  imageUrl : Option String := none
  localImageId : Option String := none
  imageOffsetY : Option Nat := none
  imageOpacity : Option Nat := none
  createdAt : Nat
deriving DecidableEq, Repr

/-- The legacy `Game` record from `useTasks.ts` (`{id, title, themeColor}`). -/
structure Game where
  id : String
  title : String
  themeColor : String
deriving DecidableEq, Repr

/-- A legacy task under the old `deadline-mate-tasks` key: the old schema names
the tag field `gameId` and may lack `createdAt`.  The remaining fields are
spread unchanged by the migration. -/
structure LegacyTask where
  id : String
  title : String
  date : String
  time : Option String := none
  completed : Bool
  type : TaskType
  gameId : Option String := none
  imageUrl : Option String := none
  localImageId : Option String := none
  imageOffsetY : Option Nat := none
  imageOpacity : Option Nat := none
  createdAt : Option Nat := none
deriving DecidableEq, Repr

/-- A value stored in `localStorage`, kept in parsed form.  `malformed` stands
for a string on which `JSON.parse` throws.  (Well-typed JSON of an unexpected
shape does not occur in any property considered here.) -/
inductive DBVal where
  | tagsVal (l : List Tag)
  | tasksVal (l : List Task)
  | gamesVal (l : List Game)
  | legacyTasksVal (l : List LegacyTask)
  | malformed
deriving DecidableEq, Repr

/-- The `localStorage` contents: key/value pairs, looked up by first match. -/
def Store := List (String × DBVal)
deriving DecidableEq

/-- `localStorage.getItem`. -/
def getItem (s : Store) (k : String) : Option DBVal :=
  List.lookup k s

/-- `localStorage.setItem`: replaces any previous binding of `k`. -/
def setItem (s : Store) (k : String) (v : DBVal) : Store :=
  (k, v) :: (List.filter (fun p => p.1 != k) s)

/-! ## Storage keys (`useTasks.ts` lines 11–14) -/

def STORAGE_KEY_TASKS : String := "picoplan-tasks"
def STORAGE_KEY_TAGS : String := "picoplan-tags"
def LEGACY_STORAGE_KEY_GAMES : String := "deadline-mate-games"
def LEGACY_STORAGE_KEY_TASKS : String := "deadline-mate-tasks"

/-! ## Parsing stored values

`JSON.parse` of a current-key or legacy-key value: success gives the typed
list, a malformed string throws (`Except.error`). -/

def parseTags : DBVal → Except Unit (List Tag)
  | .tagsVal l => .ok l
  | _ => .error ()

def parseTasks : DBVal → Except Unit (List Task)
  | .tasksVal l => .ok l
  | _ => .error ()

def parseGames : DBVal → Except Unit (List Game)
  | .gamesVal l => .ok l
  | _ => .error ()

def parseLegacyTasks : DBVal → Except Unit (List LegacyTask)
  | .legacyTasksVal l => .ok l
  | _ => .error ()

/-! ## Migration transforms (`useTasks.ts` lines 31–35 and 64–71) -/

/-- `games.map(g => ({id: g.id, name: g.title, themeColor: g.themeColor}))`. -/
def migrateGame (g : Game) : Tag :=
  { id := g.id, name := g.title, themeColor := g.themeColor }

/-- `{...t, tagId: t.gameId, createdAt: t.createdAt || Date.now()}` followed by
dropping `gameId` (`({gameId, ...rest}) => rest`).  JavaScript `||` treats the
number `0` as missing, hence the `c = 0` case. -/
def migrateTask (now : Nat) (t : LegacyTask) : Task :=
  { id := t.id, title := t.title, date := t.date, time := t.time,
    completed := t.completed, type := t.type,
    tagId := t.gameId,
    imageUrl := t.imageUrl, localImageId := t.localImageId,
    imageOffsetY := t.imageOffsetY, imageOpacity := t.imageOpacity,
    createdAt :=
      match t.createdAt with
      | some c => if c = 0 then now else c
      | none => now }

/-- The three seeded default tags (`useTasks.ts` lines 44–48). -/
def initialTags : List Tag :=
  [ { id := "tag-1", name := "仕事", themeColor := "#607d8b" },
    { id := "tag-2", name := "買い物", themeColor := "#4caf50" },
    { id := "tag-3", name := "勉強", themeColor := "#ff9800" } ]

/-! ## The load effect (`useTasks.ts` lines 20–81, identical in both revisions)

The tag phase runs first, then the task phase.  A `JSON.parse` failure on a
*current* key is not caught and aborts the whole effect; a failure on a
*legacy* key is caught and yields the empty collection. -/

/-- Tag loading: current key, else legacy `deadline-mate-games` (migrate and
persist; parse failure caught → `[]`), else seed `initialTags` and persist. -/
def loadTags (store : Store) : Except Unit (List Tag × Store) :=
  match getItem store STORAGE_KEY_TAGS with
  | some v =>
    match parseTags v with
    | .ok tags => .ok (tags, store)
    | .error e => .error e
  | none =>
    match getItem store LEGACY_STORAGE_KEY_GAMES with
    | some v =>
      match parseGames v with
      | .ok games =>
        let migratedTags := games.map migrateGame
        .ok (migratedTags, setItem store STORAGE_KEY_TAGS (.tagsVal migratedTags))
      | .error _ => .ok ([], store)
    | none =>
      .ok (initialTags, setItem store STORAGE_KEY_TAGS (.tagsVal initialTags))

/-- Task loading: current key, else legacy `deadline-mate-tasks` (migrate and
persist; parse failure caught → `[]`), else leave the state empty (no write). -/
def loadTasks (now : Nat) (store : Store) : Except Unit (List Task × Store) :=
  match getItem store STORAGE_KEY_TASKS with
  | some v =>
    match parseTasks v with
    | .ok tasks => .ok (tasks, store)
    | .error e => .error e
  | none =>
    match getItem store LEGACY_STORAGE_KEY_TASKS with
    | some v =>
      match parseLegacyTasks v with
      | .ok oldTasks =>
        let cleanTasks := oldTasks.map (migrateTask now)
        .ok (cleanTasks, setItem store STORAGE_KEY_TASKS (.tasksVal cleanTasks))
      | .error _ => .ok ([], store)
    | none => .ok ([], store)

/-- The whole load effect: tags first, then tasks, threading the store. -/
def load (now : Nat) (store : Store) : Except Unit (List Tag × List Task × Store) :=
  match loadTags store with
  | .error e => .error e
  | .ok (tags, s1) =>
    match loadTasks now s1 with
    | .error e => .error e
    | .ok (tasks, s2) => .ok (tags, tasks, s2)

/-! ## The binary image store (`imageDb.ts`) -/

/-- One entry of the IndexedDB `images` object store (`imageDb.ts` lines 4–12).
The blob is kept abstract as a string payload. -/
structure ImgEntry where
  id : String
  blob : String
  mimeType : String
  createdAt : Nat
deriving DecidableEq, Repr

/-- `URL.createObjectURL`, modelled as an injective tagging of the blob. -/
def createObjectURL (blob : String) : String := "blob:" ++ blob

/-! ## The hook state and mutations (`unnamed/part_000`, `useTasks.ts`)

The hook state bundles the two in-memory arrays, the key-value store, and the
binary image store.  `window.confirm` answers and the environment-supplied
`uuidv4()` / `Date.now()` values are explicit parameters.  The fire-and-forget
`deleteImageFromDB` call is modelled as taking effect within the operation. -/

structure HookState where
  tasks : List Task
  tags : List Tag
  store : Store
  imgDb : List (String × ImgEntry)
deriving DecidableEq

/-- `saveTasks` (`part_000` lines 83–86): set state and mirror to storage. -/
def saveTasks (newTasks : List Task) (s : HookState) : HookState :=
  { s with tasks := newTasks,
           store := setItem s.store STORAGE_KEY_TASKS (.tasksVal newTasks) }

/-- `saveTags` (`part_000` lines 88–91). -/
def saveTags (newTags : List Tag) (s : HookState) : HookState :=
  { s with tags := newTags,
           store := setItem s.store STORAGE_KEY_TAGS (.tagsVal newTags) }

/-- `deleteImageFromDB` (`imageDb.ts` lines 52–55): absent keys are a no-op. -/
def deleteImageFromDB (id : String) (db : List (String × ImgEntry)) :
    List (String × ImgEntry) :=
  List.filter (fun p => p.1 != id) db

/-- `addTask` (`part_000` lines 93–119): fresh id and timestamp come from the
environment (`uuidv4()`, `Date.now()`). -/
def addTask (freshId : String) (now : Nat) (title date : String) (ty : TaskType)
    (tagId time imageUrl : Option String) (imageOffsetY : Option Nat)
    (localImageId : Option String) (imageOpacity : Option Nat)
    (s : HookState) : HookState :=
  let newTask : Task :=
    { id := freshId, title := title, date := date, type := ty,
      completed := false, tagId := tagId, time := time,
      imageUrl := imageUrl, localImageId := localImageId,
      imageOffsetY := imageOffsetY, imageOpacity := imageOpacity,
      createdAt := now }
  saveTasks (s.tasks ++ [newTask]) s

/-- `toggleTask` (`part_000` lines 121–126). -/
def toggleTask (id : String) (s : HookState) : HookState :=
  saveTasks
    (s.tasks.map fun task =>
      if task.id == id then { task with completed := !task.completed } else task)
    s

/-- A `Partial<Task>` as used by `updateTask`: an outer `none` means the key is
absent from the update object; for fields that are themselves optional an
inner `none` is an explicit `undefined`. -/
structure TaskPatch where
  id : Option String := none
  title : Option String := none
  date : Option String := none
  time : Option (Option String) := none
  completed : Option Bool := none
  type : Option TaskType := none
  tagId : Option (Option String) := none
  imageUrl : Option (Option String) := none
  localImageId : Option (Option String) := none
  imageOffsetY : Option (Option Nat) := none
  imageOpacity : Option (Option Nat) := none
  createdAt : Option Nat := none
deriving DecidableEq, Repr

/-- The spread `{...task, ...updates}`. -/
def mergeTask (t : Task) (p : TaskPatch) : Task :=
  { id := p.id.getD t.id, title := p.title.getD t.title,
    date := p.date.getD t.date, time := p.time.getD t.time,
    completed := p.completed.getD t.completed, type := p.type.getD t.type,
    tagId := p.tagId.getD t.tagId, imageUrl := p.imageUrl.getD t.imageUrl,
    localImageId := p.localImageId.getD t.localImageId,
    imageOffsetY := p.imageOffsetY.getD t.imageOffsetY,
    imageOpacity := p.imageOpacity.getD t.imageOpacity,
    createdAt := p.createdAt.getD t.createdAt }

/-- `updateTask` (`part_000` lines 128–133). -/
def updateTask (id : String) (p : TaskPatch) (s : HookState) : HookState :=
  saveTasks
    (s.tasks.map fun task => if task.id == id then mergeTask task p else task)
    s

/-- `deleteTask` (`part_000` lines 135–148): gated on `window.confirm`; cleans
up the local image entry if present, then filters and persists. -/
def deleteTask (confirm : Bool) (id : String) (s : HookState) : HookState :=
  if confirm then
    let task := s.tasks.find? (fun t => t.id == id)
    let s1 :=
      match task with
      | some t =>
        match t.localImageId with
        | some lid => { s with imgDb := deleteImageFromDB lid s.imgDb }
        | none => s
      | none => s
    saveTasks (s1.tasks.filter (fun task => task.id != id)) s1
  else s

/-- `addTag` (`part_000` lines 150–161). -/
def addTag (freshId : String) (name themeColor : String)
    (imageUrl localImageId : Option String) (s : HookState) : HookState :=
  let newTag : Tag :=
    { id := freshId, name := name, themeColor := themeColor,
      imageUrl := imageUrl, localImageId := localImageId }
  saveTags (s.tags ++ [newTag]) s

/-- `deleteTag` (`part_000` lines 163–182): gated on `window.confirm`; cleans
up the tag's local image, removes the tag, clears `tagId` on referencing
tasks, and persists both collections. -/
def deleteTag (confirm : Bool) (id : String) (s : HookState) : HookState :=
  if confirm then
    let tag := s.tags.find? (fun t => t.id == id)
    let s1 :=
      match tag with
      | some t =>
        match t.localImageId with
        | some lid => { s with imgDb := deleteImageFromDB lid s.imgDb }
        | none => s
      | none => s
    let s2 := saveTags (s1.tags.filter (fun tag => tag.id != id)) s1
    saveTasks
      (s2.tasks.map fun task =>
        if task.tagId == some id then { task with tagId := none } else task)
      s2
  else s

/-- `deleteTask` of the `src/src/hooks/useTasks.ts` revision (lines 114–119):
confirmation-gated filter, no image cleanup. -/
def deleteTaskV1 (confirm : Bool) (id : String) (s : HookState) : HookState :=
  if confirm then
    saveTasks (s.tasks.filter (fun task => task.id != id)) s
  else s

/-- `deleteTag` of the `src/src/hooks/useTasks.ts` revision (lines 131–139):
it asks **no** confirmation — the deletion runs unconditionally. -/
def deleteTagV1 (id : String) (s : HookState) : HookState :=
  let s1 := saveTags (s.tags.filter (fun g => g.id != id)) s
  saveTasks
    (s1.tasks.map fun t =>
      if t.tagId == some id then { t with tagId := none } else t)
    s1

/-! ## Operation sequences -/

/-- One user-triggered mutation of the record store (`part_000` revision). -/
inductive Op where
  | add (freshId : String) (now : Nat) (title date : String) (ty : TaskType)
        (tagId time imageUrl : Option String) (imageOffsetY : Option Nat)
        (localImageId : Option String) (imageOpacity : Option Nat)
  | toggle (id : String)
  | update (id : String) (p : TaskPatch)
  | del (confirm : Bool) (id : String)
  | addTagOp (freshId name themeColor : String)
             (imageUrl localImageId : Option String)
  | delTag (confirm : Bool) (id : String)

def applyOp : Op → HookState → HookState
  | .add f n t d ty g tm u oy l op => addTask f n t d ty g tm u oy l op
  | .toggle id => toggleTask id
  | .update id p => updateTask id p
  | .del c id => deleteTask c id
  | .addTagOp f n c u l => addTag f n c u l
  | .delTag c id => deleteTag c id

/-- Apply a sequence of mutations left to right. -/
def runOps (ops : List Op) (s : HookState) : HookState :=
  ops.foldl (fun st op => applyOp op st) s

/-- The mirror invariant: the value persisted under the current tasks key is
exactly the in-memory task array, and likewise for tags. -/
def mirrored (s : HookState) : Prop :=
  getItem s.store STORAGE_KEY_TASKS = some (.tasksVal s.tasks) ∧
  getItem s.store STORAGE_KEY_TAGS = some (.tagsVal s.tags)

instance (s : HookState) : Decidable (mirrored s) := by
  unfold mirrored; infer_instance

/-! ## Image resolution (`useImage.ts`, `imageDb.ts`) -/

/-- JavaScript truthiness of a possibly-absent string: `null`/`undefined` and
`""` are falsy. -/
def jsStrFalsy : Option String → Bool
  | none => true
  | some s => s.isEmpty

/-- `x || null` on a possibly-absent string. -/
def orNull (o : Option String) : Option String :=
  if jsStrFalsy o then none else o

/-- `getImageFromDB` (`imageDb.ts` lines 38–50): any failure while opening or
reading the store is caught and yields `null`; a missing entry yields `null`;
a hit yields an object URL for the stored blob.  The database access outcome
is passed in as `db`: `Except.error` models a throwing store. -/
def getImageFromDB (db : Except Unit (List (String × ImgEntry))) (id : String) :
    Option String :=
  match db with
  | .error _ => none
  | .ok entries =>
    match List.lookup id entries with
    | some item => some (createObjectURL item.blob)
    | none => none

/-- `useImage` (`useImage.ts` lines 4–34): with a falsy `localImageId` the
result is `fallbackUrl || null`; otherwise the local lookup result if truthy,
else `fallbackUrl || null`. -/
def useImage (db : Except Unit (List (String × ImgEntry)))
    (localImageId fallbackUrl : Option String) : Option String :=
  if jsStrFalsy localImageId then
    orNull fallbackUrl
  else
    match getImageFromDB db (localImageId.getD "") with
    | some url => if url.isEmpty then orNull fallbackUrl else some url
    | none => orNull fallbackUrl

/-! ## Dates and the list view (`App.tsx` lines 62–104)

Task dates are ISO day strings `"YYYY-MM-DD"` (`types.ts`).  `new
Date(s).getTime()` for such a string is midnight UTC of that civil day; we
compute it as days-from-civil × 86400000 (Gregorian, proleptic). -/

structure YMD where
  y : Nat
  m : Nat
  d : Nat
deriving DecidableEq, Repr

/-- Split a character list on `'-'`. -/
def splitDash : List Char → List (List Char)
  | [] => [[]]
  | c :: rest =>
    if c = '-' then [] :: splitDash rest
    else
      match splitDash rest with
      | [] => [[c]]
      | g :: gs => (c :: g) :: gs

/-- Decimal value of a digit list. -/
def digitsVal (l : List Char) : Nat :=
  l.foldl (fun n c => 10 * n + (c.toNat - 48)) 0

/-- Parse `"YYYY-MM-DD"`. -/
def parseYMD (s : String) : YMD :=
  match (splitDash s.toList).map digitsVal with
  | [y, m, d] => ⟨y, m, d⟩
  | _ => ⟨0, 0, 0⟩

/-- Days from 1970-01-01 of a civil date (standard era-based computation). -/
def daysFromCivil (x : YMD) : Int :=
  let y : Int := if x.m ≤ 2 then (x.y : Int) - 1 else (x.y : Int)
  let era : Int := (if 0 ≤ y then y else y - 399).ediv 400
  let yoe : Int := y - era * 400
  let mp : Int := ((x.m : Int) + 9).emod 12
  let doy : Int := (153 * mp + 2).ediv 5 + (x.d : Int) - 1
  let doe : Int := yoe * 365 + yoe.ediv 4 - yoe.ediv 100 + doy
  era * 146097 + doe - 719468

/-- `new Date(s).getTime()` for an ISO day string, in milliseconds. -/
def getTime (s : String) : Int :=
  daysFromCivil (parseYMD s) * 86400000

/-- The sort comparator of `App.tsx` lines 81–86. -/
def taskCmp (a b : Task) : Int :=
  if a.completed = b.completed then getTime a.date - getTime b.date
  else if a.completed then 1 else -1

/-- The "not after" relation induced by the comparator (`taskCmp a b ≤ 0`).
ECMA-262 requires `Array.prototype.sort` with a consistent comparator to
produce a stable permutation sorted by this relation; since that output is
unique, any stable sort is a faithful model. -/
def taskLe (a b : Task) : Prop :=
  taskCmp a b ≤ 0

instance : DecidableRel taskLe := fun a b => by
  unfold taskLe; infer_instance

/-- The in-place `result.sort((a, b) => ...)` of `App.tsx` lines 81–86,
realised by the stable insertion sort. -/
def sortTasks (l : List Task) : List Task :=
  List.insertionSort taskLe l

/-- `isSameDay(parseISO(t.date), selectedDate)`: calendar-day equality. -/
def isSameDay (a b : YMD) : Bool := a == b

/-- `filteredTasks` (`App.tsx` lines 62–95): date filter if a date is
selected; otherwise, if no tag filter either, the default sort; finally the
tag filter when one is selected. -/
def filteredTasks (tasks : List Task) (selectedDate : Option YMD)
    (selectedTagFilter : Option String) : List Task :=
  let result := tasks
  let result :=
    match selectedDate with
    | some d => result.filter (fun t => isSameDay (parseYMD t.date) d)
    | none =>
      match selectedTagFilter with
      | some _ => result
      | none => sortTasks result
  match selectedTagFilter with
  | some g => result.filter (fun t => t.tagId == some g)
  | none => result

/-! ## Render-time defaults (`TaskList.tsx`)

The hero image (first revision lines 110–126, second revision lines 393–406)
positions with `task.imageOffsetY ?? 50`, and for opacity sets the inline
style `task.imageOpacity ? task.imageOpacity / 100 : undefined` together with
the class fallback `!task.imageOpacity && "opacity-20 dark:opacity-10"`.
The settings overlay (second revision lines 410–441) and the edit-mode state
(first revision lines 68–69) display `task.imageOffsetY ?? 50` and
`task.imageOpacity ?? 30`. -/

/-- JavaScript truthiness of a possibly-absent number: absent and `0` falsy. -/
def jsNumFalsy : Option Nat → Bool
  | none => true
  | some n => n == 0

/-- `task.imageOffsetY ?? 50` — vertical position of the hero image. -/
def renderedOffsetY (t : Task) : Nat :=
  t.imageOffsetY.getD 50

/-- The inline opacity style, in percent: `some o` when `task.imageOpacity` is
truthy, `none` for `undefined`. -/
def heroOpacityStylePercent (t : Task) : Option Nat :=
  match t.imageOpacity with
  | some o => if o = 0 then none else some o
  | none => none

/-- Whether the `opacity-20 dark:opacity-10` fallback class is applied. -/
def heroOpacityFallbackClass (t : Task) : Bool :=
  jsNumFalsy t.imageOpacity

/-- The opacity (percent) the hero image is actually rendered with: the inline
style when present, otherwise the fallback class (20% light / 10% dark). -/
def effectiveHeroOpacityPercent (dark : Bool) (t : Task) : Nat :=
  match heroOpacityStylePercent t with
  | some o => o
  | none => if dark then 10 else 20

/-- Offset value displayed (and used) by the image-settings controls. -/
def settingsOffsetYDisplay (t : Task) : Nat :=
  t.imageOffsetY.getD 50

/-- Opacity value displayed (and used) by the image-settings controls:
`task.imageOpacity ?? 30`. -/
def settingsOpacityDisplay (t : Task) : Nat :=
  t.imageOpacity.getD 30

/-! ## The comparator relation is a total preorder -/

instance : IsTotal Task taskLe :=
  ⟨by
    intro a b
    cases hA : a.completed <;> cases hB : b.completed <;>
      simp_all [taskLe, taskCmp] <;> omega⟩

instance : IsTrans Task taskLe :=
  ⟨by
    intro a b c hab hbc
    cases hA : a.completed <;> cases hB : b.completed <;> cases hC : c.completed <;>
      simp_all [taskLe, taskCmp] <;> omega⟩

/-! ## Concrete instances used by the witnesses and counterexamples -/

def cTagW : Tag := { id := "g1", name := "Work", themeColor := "#111" }

def cTaskW : Task :=
  { id := "t0", title := "walk", date := "2024-03-09", completed := false,
    type := TaskType.scheduled, tagId := some "g1", createdAt := 7 }

def cS0 : HookState :=
  { tasks := [cTaskW], tags := [cTagW],
    store := [(STORAGE_KEY_TASKS, DBVal.tasksVal [cTaskW]),
              (STORAGE_KEY_TAGS, DBVal.tagsVal [cTagW])],
    imgDb := [] }

def cOps0 : List Op :=
  [ Op.add "t1" 10 "buy milk" "2024-03-10" TaskType.deadline none none none
      none none none,
    Op.toggle "t0",
    Op.update "t0" { title := some "walk the dog" },
    Op.addTagOp "g2" "Home" "#222" none none,
    Op.delTag true "g1",
    Op.del true "t1",
    Op.del false "t0" ]

def cTask2Cleared : Task :=
  { id := "t0", title := "walk", date := "2024-03-09", completed := false,
    type := TaskType.scheduled, tagId := none, createdAt := 7 }

def cLeg3 : LegacyTask :=
  { id := "t1", title := "X", date := "2024-01-05", completed := false,
    type := TaskType.deadline, gameId := some "g1", createdAt := none }

def cMig3 : Task :=
  { id := "t1", title := "X", date := "2024-01-05", completed := false,
    type := TaskType.deadline, tagId := some "g1", createdAt := 1700000000000 }

def cStore3 : Store :=
  [(STORAGE_KEY_TAGS, DBVal.tagsVal [cTagW]),
   (LEGACY_STORAGE_KEY_TASKS, DBVal.legacyTasksVal [cLeg3])]

def cGame4 : Game := { id := "g1", title := "Work", themeColor := "#111" }

def cStore4a : Store :=
  [(LEGACY_STORAGE_KEY_GAMES, DBVal.gamesVal [cGame4]),
   (STORAGE_KEY_TASKS, DBVal.tasksVal [])]

def cStore4b : Store := [(STORAGE_KEY_TASKS, DBVal.tasksVal [])]

def cStore5 : Store :=
  [(STORAGE_KEY_TAGS, DBVal.tagsVal [cTagW]),
   (STORAGE_KEY_TASKS, DBVal.tasksVal [cTaskW])]

def cEntry7 : ImgEntry :=
  { id := "img1", blob := "payload", mimeType := "image/png", createdAt := 5 }

def cEntries7 : List (String × ImgEntry) := [("img1", cEntry7)]

def cT8Completed : Task :=
  { id := "a", title := "done", date := "2024-01-01", completed := true,
    type := TaskType.deadline, createdAt := 1 }

def cT8Incomplete : Task :=
  { id := "b", title := "todo", date := "2024-01-02", completed := false,
    type := TaskType.scheduled, createdAt := 2 }

def cT9 : Task :=
  { id := "t9", title := "pic", date := "2024-02-02", completed := false,
    type := TaskType.scheduled, imageUrl := some "https://x/y.png",
    imageOffsetY := none, imageOpacity := none, createdAt := 3 }

def cStore10a : Store := [(STORAGE_KEY_TAGS, DBVal.malformed)]

def cStore10b : Store :=
  [(STORAGE_KEY_TAGS, DBVal.tagsVal [cTagW]),
   (STORAGE_KEY_TASKS, DBVal.malformed)]

def cStore10c : Store := [(LEGACY_STORAGE_KEY_GAMES, DBVal.malformed)]

def cStore10d : Store := [(LEGACY_STORAGE_KEY_TASKS, DBVal.malformed)]

/-! # Theorems -/

/-! ## Store lemmas -/

theorem getItem_setItem_self (s : Store) (k : String) (v : DBVal) :
    getItem (setItem s k v) k = some v := by
  simp [getItem, setItem, List.lookup]

theorem getItem_setItem_ne (s : Store) (k k' : String) (v : DBVal) (h : k' ≠ k) :
    getItem (setItem s k v) k' = getItem s k' := by
  simp only [getItem, setItem, List.lookup]
  have hbeq : (k' == k) = false := by
    simp [h]
  simp only [hbeq]
  induction s with
  | nil => simp
  | cons p rest ih =>
    by_cases hp : p.1 = k
    · have hfk : (p.1 != k) = false := by simp [hp]
      have hk'p : (k' == p.1) = false := by
        simp [hp, h]
      simp [List.filter, hfk, List.lookup, hk'p, ih]
    · have hfk : (p.1 != k) = true := by simp [hp]
      by_cases hk' : k' = p.1
      · simp [List.filter, hfk, List.lookup, hk']
      · have hk'p : (k' == p.1) = false := by simp [hk']
        simp [List.filter, hfk, List.lookup, hk'p, ih]

theorem keys_ne : STORAGE_KEY_TAGS ≠ STORAGE_KEY_TASKS := by decide

/-! ## The mirror invariant is preserved by every mutation -/

theorem mirrored_saveTasks (ts : List Task) (s : HookState) (h : mirrored s) :
    mirrored (saveTasks ts s) := by
  refine ⟨getItem_setItem_self .., ?_⟩
  show getItem (setItem s.store STORAGE_KEY_TASKS (.tasksVal ts)) STORAGE_KEY_TAGS
      = some (.tagsVal s.tags)
  rw [getItem_setItem_ne _ _ _ _ keys_ne]
  exact h.2

theorem mirrored_saveTags (tg : List Tag) (s : HookState) (h : mirrored s) :
    mirrored (saveTags tg s) := by
  refine ⟨?_, getItem_setItem_self ..⟩
  show getItem (setItem s.store STORAGE_KEY_TAGS (.tagsVal tg)) STORAGE_KEY_TASKS
      = some (.tasksVal s.tasks)
  rw [getItem_setItem_ne _ _ _ _ keys_ne.symm]
  exact h.1

theorem mirrored_applyOp (op : Op) (s : HookState) (h : mirrored s) :
    mirrored (applyOp op s) := by
  cases op with
  | add f n t d ty g tm u oy l op => exact mirrored_saveTasks _ _ h
  | toggle id => exact mirrored_saveTasks _ _ h
  | update id p => exact mirrored_saveTasks _ _ h
  | addTagOp f n c u l => exact mirrored_saveTags _ _ h
  | del c id =>
    cases c with
    | false => exact h
    | true =>
      show mirrored (deleteTask true id s)
      rw [deleteTask]
      simp only [if_pos]
      apply mirrored_saveTasks
      split
      · split
        · exact h
        · exact h
      · exact h
  | delTag c id =>
    cases c with
    | false => exact h
    | true =>
      show mirrored (deleteTag true id s)
      rw [deleteTag]
      simp only [if_pos]
      apply mirrored_saveTasks
      apply mirrored_saveTags
      split
      · split
        · exact h
        · exact h
      · exact h

theorem mirrored_runOps (ops : List Op) :
    ∀ s : HookState, mirrored s → mirrored (runOps ops s) := by
  induction ops with
  | nil => intro s h; exact h
  | cons op rest ih =>
    intro s h
    exact ih (applyOp op s) (mirrored_applyOp op s h)

/-- C1: starting from any state in which the in-memory arrays equal the
persisted ones, after every sequence of `addTask`/`toggleTask`/`updateTask`/
`deleteTask`/`addTag`/`deleteTag` mutations — hence after each individual
operation, since every prefix of a sequence is itself a sequence — the
in-memory `Task` array equals the array persisted under the current tasks key
and the in-memory `Tag` array equals the array persisted under the current
tags key. -/
theorem c1_mutations_mirror_storage (s : HookState) (h : mirrored s)
    (ops : List Op) : mirrored (runOps ops s) :=
  mirrored_runOps ops s h

theorem c1_mutations_mirror_storage_witness :
    mirrored cS0 ∧ mirrored (runOps cOps0 cS0) :=
  ⟨by decide, c1_mutations_mirror_storage cS0 (by decide) cOps0⟩

/-- C2: for every state and tag identifier, `deleteTag` with the confirmation
given removes the tag with that identifier from the tag collection and clears
the `tagId` reference on every task that pointed to it, so no task references
the deleted tag afterwards; tasks referencing other tags are kept as they
are.  The same holds for the `useTasks.ts` revision (`deleteTagV1`), which
asks no confirmation. -/
theorem c2_deleteTag_no_dangling (s : HookState) (id : String) :
    ((deleteTag true id s).tags = s.tags.filter (fun g => g.id != id)) ∧
    (∀ g ∈ (deleteTag true id s).tags, g.id ≠ id) ∧
    (∀ t ∈ (deleteTag true id s).tasks, t.tagId ≠ some id) ∧
    (∀ t ∈ s.tasks, t.tagId ≠ some id → t ∈ (deleteTag true id s).tasks) ∧
    ((deleteTagV1 id s).tags = s.tags.filter (fun g => g.id != id)) ∧
    (∀ t ∈ (deleteTagV1 id s).tasks, t.tagId ≠ some id) := by
  have htags : (deleteTag true id s).tags = s.tags.filter (fun g => g.id != id) := by
    rw [deleteTag]
    simp only [if_pos]
    split
    · split <;> rfl
    · rfl
  have htasks : (deleteTag true id s).tasks
      = s.tasks.map (fun t =>
          if t.tagId == some id then { t with tagId := none } else t) := by
    rw [deleteTag]
    simp only [if_pos]
    split
    · split <;> rfl
    · rfl
  have hV1tasks : (deleteTagV1 id s).tasks
      = s.tasks.map (fun t =>
          if t.tagId == some id then { t with tagId := none } else t) := rfl
  refine ⟨htags, ?_, ?_, ?_, rfl, ?_⟩
  · intro g hg
    rw [htags] at hg
    have hmem := List.mem_filter.mp hg
    simpa using hmem.2
  · intro t ht
    rw [htasks] at ht
    rcases List.mem_map.mp ht with ⟨t0, _, rfl⟩
    by_cases h0 : t0.tagId = some id
    · simp [h0]
    · simp [h0]
  · intro t ht hne
    rw [htasks]
    refine List.mem_map.mpr ⟨t, ht, ?_⟩
    simp [hne]
  · intro t ht
    rw [hV1tasks] at ht
    rcases List.mem_map.mp ht with ⟨t0, _, rfl⟩
    by_cases h0 : t0.tagId = some id
    · simp [h0]
    · simp [h0]

theorem c2_deleteTag_no_dangling_witness :
    (deleteTag true "g1" cS0).tags = cS0.tags.filter (fun g => g.id != "g1") ∧
    cTask2Cleared.tagId ≠ some "g1" :=
  ⟨(c2_deleteTag_no_dangling cS0 "g1").1,
   (c2_deleteTag_no_dangling cS0 "g1").2.2.1 cTask2Cleared (by decide)⟩

/-- C6 counterexample: the `deleteTag` of `src/src/hooks/useTasks.ts` (lines
131–139) performs the deletion unconditionally — it never calls
`window.confirm` — so with a tag `"g1"` present the tag collection and its
persisted copy change although no confirmation was given. -/
theorem c6_counterexample :
    (deleteTagV1 "g1" cS0).tags ≠ cS0.tags ∧
    getItem (deleteTagV1 "g1" cS0).store STORAGE_KEY_TAGS
      ≠ getItem cS0.store STORAGE_KEY_TAGS := by
  constructor
  · decide
  · decide

/-- C6 amended: `deleteTask` is confirmation-gated in both revisions and
`deleteTag` is confirmation-gated in the `part_000` revision — declining the
confirmation leaves the whole state (in-memory arrays, key-value store and
image store) unchanged, a no-op.  The `deleteTag` of the
`src/src/hooks/useTasks.ts` revision asks no confirmation (see the
counterexample). -/
theorem c6_amended_decline_noop :
    (∀ (s : HookState) (id : String), deleteTask false id s = s) ∧
    (∀ (s : HookState) (id : String), deleteTag false id s = s) ∧
    (∀ (s : HookState) (id : String), deleteTaskV1 false id s = s) :=
  ⟨fun _ _ => rfl, fun _ _ => rfl, fun _ _ => rfl⟩

/-- C9 counterexample: for a task whose stored `imageOpacity` is absent, the
hero image is rendered with the `opacity-20 dark:opacity-10` fallback class —
20% opacity (10% in dark mode) — not with 30%. -/
theorem c9_counterexample :
    effectiveHeroOpacityPercent false cT9 = 20 ∧
    effectiveHeroOpacityPercent true cT9 = 10 ∧
    effectiveHeroOpacityPercent false cT9 ≠ 30 := by
  refine ⟨by decide, by decide, by decide⟩

/-- C9 amended: when `imageOffsetY` is absent the rendered vertical position
uses 50 (and the settings control displays 50); when `imageOpacity` is absent
the rendered image gets no inline opacity style and falls back to the
20%-opacity class (10% in dark mode), while the image-settings controls
display 30 as the default.  The stored values themselves remain absent: the
defaults are applied at render time only. -/
theorem c9_amended_render_defaults (t : Task)
    (hoff : t.imageOffsetY = none) (hop : t.imageOpacity = none) :
    renderedOffsetY t = 50 ∧ settingsOffsetYDisplay t = 50 ∧
    heroOpacityStylePercent t = none ∧ heroOpacityFallbackClass t = true ∧
    effectiveHeroOpacityPercent false t = 20 ∧
    effectiveHeroOpacityPercent true t = 10 ∧
    settingsOpacityDisplay t = 30 := by
  simp [renderedOffsetY, settingsOffsetYDisplay, heroOpacityStylePercent,
        heroOpacityFallbackClass, effectiveHeroOpacityPercent, jsNumFalsy,
        settingsOpacityDisplay, hoff, hop]

theorem c9_amended_render_defaults_witness :
    cT9.imageOffsetY = none ∧ cT9.imageOpacity = none ∧
    (renderedOffsetY cT9 = 50 ∧ settingsOffsetYDisplay cT9 = 50 ∧
     heroOpacityStylePercent cT9 = none ∧ heroOpacityFallbackClass cT9 = true ∧
     effectiveHeroOpacityPercent false cT9 = 20 ∧
     effectiveHeroOpacityPercent true cT9 = 10 ∧
     settingsOpacityDisplay cT9 = 30) :=
  ⟨by decide, by decide,
   c9_amended_render_defaults cT9 (by decide) (by decide)⟩

/-- C3: during `load()`, when nothing is stored under the current tasks key
and a legacy entry exists, every legacy task is migrated — `tagId` takes the
value of the old `gameId` field, a missing `createdAt` is backfilled with the
current time, all other fields carry over, and the result type `Task` has no
`gameId` field — and the transformed collection is persisted under the
current key. -/
theorem c3_task_migration (store : Store) (now : Nat) (tagsCur : List Tag)
    (ol : List LegacyTask)
    (htags : getItem store STORAGE_KEY_TAGS = some (.tagsVal tagsCur))
    (hcur : getItem store STORAGE_KEY_TASKS = none)
    (hleg : getItem store LEGACY_STORAGE_KEY_TASKS = some (.legacyTasksVal ol)) :
    load now store =
      .ok (tagsCur, ol.map (migrateTask now),
        setItem store STORAGE_KEY_TASKS (.tasksVal (ol.map (migrateTask now)))) ∧
    getItem (setItem store STORAGE_KEY_TASKS (.tasksVal (ol.map (migrateTask now))))
      STORAGE_KEY_TASKS = some (.tasksVal (ol.map (migrateTask now))) ∧
    (∀ t ∈ ol, (migrateTask now t).tagId = t.gameId ∧
      (t.createdAt = none → (migrateTask now t).createdAt = now)) := by
  refine ⟨?_, getItem_setItem_self .., ?_⟩
  · unfold load loadTags loadTasks
    simp only [htags, hcur, hleg, parseTags, parseLegacyTasks]
  · intro t _
    refine ⟨rfl, fun hc => ?_⟩
    simp [migrateTask, hc]

theorem c3_task_migration_witness :
    getItem cStore3 STORAGE_KEY_TASKS = none ∧
    cLeg3.createdAt = none ∧
    load 1700000000000 cStore3 =
      .ok ([cTagW], [cMig3],
        setItem cStore3 STORAGE_KEY_TASKS (.tasksVal [cMig3])) :=
  ⟨by decide, by decide,
   (c3_task_migration cStore3 1700000000000 [cTagW] [cLeg3]
     (by decide) (by decide) (by decide)).1⟩

/-- C4: during `load()`, when nothing is stored under the current tags key
and a legacy `deadline-mate-games` collection exists, each legacy entry
`{id, title, themeColor}` becomes `{id, name := title, themeColor}`, the
result is persisted under the current tags key, and the legacy key is left
untouched; when neither current nor legacy tag data exists, the three
built-in default tags are seeded and persisted. -/
theorem c4_tag_migration_and_seed :
    (∀ (store : Store) (now : Nat) (gs : List Game) (B : List Task),
      getItem store STORAGE_KEY_TAGS = none →
      getItem store LEGACY_STORAGE_KEY_GAMES = some (.gamesVal gs) →
      getItem store STORAGE_KEY_TASKS = some (.tasksVal B) →
      load now store =
        .ok (gs.map migrateGame, B,
          setItem store STORAGE_KEY_TAGS (.tagsVal (gs.map migrateGame))) ∧
      getItem (setItem store STORAGE_KEY_TAGS (.tagsVal (gs.map migrateGame)))
        STORAGE_KEY_TAGS = some (.tagsVal (gs.map migrateGame)) ∧
      getItem (setItem store STORAGE_KEY_TAGS (.tagsVal (gs.map migrateGame)))
        LEGACY_STORAGE_KEY_GAMES = getItem store LEGACY_STORAGE_KEY_GAMES ∧
      gs.map migrateGame = gs.map (fun g =>
        { id := g.id, name := g.title, themeColor := g.themeColor })) ∧
    (∀ (store : Store) (now : Nat) (B : List Task),
      getItem store STORAGE_KEY_TAGS = none →
      getItem store LEGACY_STORAGE_KEY_GAMES = none →
      getItem store STORAGE_KEY_TASKS = some (.tasksVal B) →
      load now store =
        .ok (initialTags, B,
          setItem store STORAGE_KEY_TAGS (.tagsVal initialTags)) ∧
      initialTags.length = 3) := by
  constructor
  · intro store now gs B h1 h2 h3
    have hTasksKept :
        getItem (setItem store STORAGE_KEY_TAGS (.tagsVal (gs.map migrateGame)))
          STORAGE_KEY_TASKS = some (.tasksVal B) := by
      rw [getItem_setItem_ne _ _ _ _ keys_ne.symm]
      exact h3
    refine ⟨?_, getItem_setItem_self .., ?_, rfl⟩
    · unfold load loadTags loadTasks
      simp only [h1, h2, parseGames, hTasksKept, parseTasks]
    · rw [getItem_setItem_ne _ _ _ _ (by decide)]
  · intro store now B h1 h2 h3
    have hTasksKept :
        getItem (setItem store STORAGE_KEY_TAGS (.tagsVal initialTags))
          STORAGE_KEY_TASKS = some (.tasksVal B) := by
      rw [getItem_setItem_ne _ _ _ _ keys_ne.symm]
      exact h3
    refine ⟨?_, rfl⟩
    unfold load loadTags loadTasks
    simp only [h1, h2, hTasksKept, parseTasks]

theorem c4_tag_migration_and_seed_witness :
    (load 0 cStore4a =
      .ok ([cGame4].map migrateGame, [],
        setItem cStore4a STORAGE_KEY_TAGS (.tagsVal ([cGame4].map migrateGame))) ∧
     getItem (setItem cStore4a STORAGE_KEY_TAGS (.tagsVal ([cGame4].map migrateGame)))
       LEGACY_STORAGE_KEY_GAMES = getItem cStore4a LEGACY_STORAGE_KEY_GAMES) ∧
    load 0 cStore4b =
      .ok (initialTags, [], setItem cStore4b STORAGE_KEY_TAGS (.tagsVal initialTags)) :=
  ⟨⟨(c4_tag_migration_and_seed.1 cStore4a 0 [cGame4] []
      (by decide) (by decide) (by decide)).1,
    (c4_tag_migration_and_seed.1 cStore4a 0 [cGame4] []
      (by decide) (by decide) (by decide)).2.2.1⟩,
   (c4_tag_migration_and_seed.2 cStore4b 0 []
      (by decide) (by decide) (by decide)).1⟩

/-- C5: when data is already present under both current keys — the state
after a completed migration — `load()` returns exactly the stored
collections and the very same store: it performs no storage writes, so the
migration step is idempotent and safe to run on every startup. -/
theorem c5_load_idempotent (store : Store) (now : Nat) (A : List Tag)
    (B : List Task)
    (h1 : getItem store STORAGE_KEY_TAGS = some (.tagsVal A))
    (h2 : getItem store STORAGE_KEY_TASKS = some (.tasksVal B)) :
    load now store = .ok (A, B, store) := by
  unfold load loadTags loadTasks
  simp only [h1, h2, parseTags, parseTasks]

theorem c5_load_idempotent_witness :
    getItem cStore5 STORAGE_KEY_TAGS = some (.tagsVal [cTagW]) ∧
    load 0 cStore5 = .ok ([cTagW], [cTaskW], cStore5) :=
  ⟨by decide, c5_load_idempotent cStore5 0 [cTagW] [cTaskW] (by decide) (by decide)⟩

/-- C10: `load()` guards `JSON.parse` only on the legacy-key migration
branches.  A malformed value under the current tags key or the current tasks
key makes `load()` propagate the parse error instead of falling back to an
empty collection, while a malformed value under a legacy key is caught and
yields the empty collection. -/
theorem c10_current_key_parse_propagates :
    (∀ (store : Store) (now : Nat),
      getItem store STORAGE_KEY_TAGS = some .malformed →
      load now store = .error ()) ∧
    (∀ (store : Store) (now : Nat) (A : List Tag),
      getItem store STORAGE_KEY_TAGS = some (.tagsVal A) →
      getItem store STORAGE_KEY_TASKS = some .malformed →
      load now store = .error ()) ∧
    (∀ store : Store,
      getItem store STORAGE_KEY_TAGS = none →
      getItem store LEGACY_STORAGE_KEY_GAMES = some .malformed →
      loadTags store = .ok ([], store)) ∧
    (∀ (store : Store) (now : Nat),
      getItem store STORAGE_KEY_TASKS = none →
      getItem store LEGACY_STORAGE_KEY_TASKS = some .malformed →
      loadTasks now store = .ok ([], store)) := by
  refine ⟨?_, ?_, ?_, ?_⟩
  · intro store now h1
    unfold load loadTags
    simp only [h1, parseTags]
  · intro store now A h1 h2
    unfold load loadTags loadTasks
    simp only [h1, h2, parseTags, parseTasks]
  · intro store h1 h2
    unfold loadTags
    simp only [h1, h2, parseGames]
  · intro store now h1 h2
    unfold loadTasks
    simp only [h1, h2, parseLegacyTasks]

theorem c10_current_key_parse_propagates_witness :
    load 0 cStore10a = .error () ∧
    load 0 cStore10b = .error () ∧
    loadTags cStore10c = .ok ([], cStore10c) ∧
    loadTasks 0 cStore10d = .ok ([], cStore10d) :=
  ⟨c10_current_key_parse_propagates.1 cStore10a 0 (by decide),
   c10_current_key_parse_propagates.2.1 cStore10b 0 [cTagW] (by decide) (by decide),
   c10_current_key_parse_propagates.2.2.1 cStore10c (by decide) (by decide),
   c10_current_key_parse_propagates.2.2.2 cStore10d 0 (by decide) (by decide)⟩

theorem createObjectURL_not_empty (b : String) :
    (createObjectURL b).isEmpty = false := by
  rw [Bool.eq_false_iff]
  intro h
  have h2 : createObjectURL b = "" := (String.isEmpty_iff _).mp h
  have h3 := congrArg String.data h2
  simp [createObjectURL] at h3

/-- C7: the resolved display image is the local binary-store handle when a
local-binary reference is present and its lookup succeeds; when the local
lookup yields nothing or the store access fails (failures are caught inside
`getImageFromDB` and treated as not found), it is the remote URL if one is
present; when neither resolves, no image is shown. -/
theorem c7_image_resolution :
    (∀ (entries : List (String × ImgEntry)) (lid : String)
        (fb : Option String) (e : ImgEntry),
      lid.isEmpty = false → List.lookup lid entries = some e →
      useImage (.ok entries) (some lid) fb = some (createObjectURL e.blob)) ∧
    (∀ (entries : List (String × ImgEntry)) (lid u : String),
      lid.isEmpty = false → List.lookup lid entries = none → u.isEmpty = false →
      useImage (.ok entries) (some lid) (some u) = some u) ∧
    (∀ (lid u : String),
      lid.isEmpty = false → u.isEmpty = false →
      useImage (.error ()) (some lid) (some u) = some u) ∧
    (∀ (entries : List (String × ImgEntry)) (lid : String),
      lid.isEmpty = false → List.lookup lid entries = none →
      useImage (.ok entries) (some lid) none = none) ∧
    (∀ lid : String, lid.isEmpty = false →
      useImage (.error ()) (some lid) none = none) := by
  refine ⟨?_, ?_, ?_, ?_, ?_⟩
  · intro entries lid fb e hlid hlook
    simp [useImage, jsStrFalsy, hlid, getImageFromDB, hlook,
          createObjectURL_not_empty]
  · intro entries lid u hlid hlook hu
    simp [useImage, jsStrFalsy, hlid, getImageFromDB, hlook, orNull, hu]
  · intro lid u hlid hu
    simp [useImage, jsStrFalsy, hlid, getImageFromDB, orNull, hu]
  · intro entries lid hlid hlook
    simp [useImage, jsStrFalsy, hlid, getImageFromDB, hlook, orNull]
  · intro lid hlid
    simp [useImage, jsStrFalsy, hlid, getImageFromDB, orNull]

theorem c7_image_resolution_witness :
    useImage (.ok cEntries7) (some "img1") (some "https://x/y.png")
      = some (createObjectURL cEntry7.blob) ∧
    useImage (.ok cEntries7) (some "img2") (some "https://x/y.png")
      = some "https://x/y.png" ∧
    useImage (.error ()) (some "img1") (some "https://x/y.png")
      = some "https://x/y.png" ∧
    useImage (.ok cEntries7) (some "img2") none = none :=
  ⟨c7_image_resolution.1 cEntries7 "img1" (some "https://x/y.png") cEntry7
      (by decide) (by decide),
   c7_image_resolution.2.1 cEntries7 "img2" "https://x/y.png"
      (by decide) (by decide) (by decide),
   c7_image_resolution.2.2.1 "img1" "https://x/y.png" (by decide) (by decide),
   c7_image_resolution.2.2.2.1 cEntries7 "img2" (by decide) (by decide)⟩

/-- C8: with no date filter and no tag filter active, the displayed task list
is a permutation of the tasks in which every incomplete task precedes every
completed task and, within each of the two groups, dates are ascending; in
particular a completed task dated 2024-01-01 is placed after an incomplete
task dated 2024-01-02. -/
theorem c8_default_order (tasks : List Task) :
    List.Perm (filteredTasks tasks none none) tasks ∧
    List.Pairwise
      (fun a b => (a.completed = false ∧ b.completed = true) ∨
        (a.completed = b.completed ∧ getTime a.date ≤ getTime b.date))
      (filteredTasks tasks none none) ∧
    filteredTasks [cT8Completed, cT8Incomplete] none none
      = [cT8Incomplete, cT8Completed] := by
  have heq : filteredTasks tasks none none = sortTasks tasks := rfl
  refine ⟨?_, ?_, by decide⟩
  · rw [heq]
    exact List.perm_insertionSort taskLe tasks
  · rw [heq]
    have hs : List.Pairwise taskLe (sortTasks tasks) :=
      List.sorted_insertionSort taskLe tasks
    refine hs.imp ?_
    intro a b hab
    unfold taskLe taskCmp at hab
    cases hA : a.completed <;> cases hB : b.completed
    · refine Or.inr ⟨rfl, ?_⟩
      simp [hA, hB] at hab
      omega
    · exact Or.inl ⟨rfl, rfl⟩
    · exfalso
      simp [hA, hB] at hab
    · refine Or.inr ⟨rfl, ?_⟩
      simp [hA, hB] at hab
      omega

end PicoPlan
